import Mathlib

/-!
Verification development for the OCPP 1.6J charge-point simulator
(src/OCPPEndDevice.js).  The file contains two concatenated variants of the
simulator: a headless one (lines 1-439) and an interactive one (lines
440-1123).  The claims cite the headless variant except where the interactive
one is named; both share the protocol engine verbatim.

Shallow embedding.  Each JavaScript `async` function is translated into a
resumption program (`Prog`): a tree whose nodes are maximal synchronous
blocks.  A node either ends the task (`done`) or suspends awaiting the reply
of an outbound Call (`call`); `branch` lets a synchronous block inspect the
mutable state before continuing (branches are peeled inside the same atomic
step, see `head`).  The reply delivered to an `await sendCALL(...)` is drawn
from an oracle (`Nat -> CallRes`): `ok` models a CALLRESULT arriving, `err`
models a CALLERROR or the 20-second timeout rejection.  Mutable module state
(lines 41-53 of the source) is the record `St`; observable actions (frames
written to the websocket, timer arming, the interactive-variant local status
write) are the events `Ev`.
-/

/-- CONNECTOR_ID, source line 31. -/
def CONNECTOR_ID : Nat := 1

/-- DEFAULT_HB_SEC, source line 32: fallback heartbeat interval. -/
def DEFAULT_HB_SEC : Int := 60

/-- JavaScript `a || d` for an optional string `a`: the default is used when
the value is absent or falsy (the empty string); any other string is kept.
Used at source lines 243 (`payload?.idTag || 'DEMO-TAG'`) and 253
(`auth?.idTagInfo?.status || 'Accepted'`). -/
def jsOrStr (a : Option String) (d : String) : String :=
  match a with
  | none => d
  | some s => if s = "" then d else s

/-- JavaScript `a || d` for an optional integer `a`: the default is used when
the value is absent or falsy (zero); any other integer, including a negative
one, is kept.  Used at source line 115 (`res.interval || DEFAULT_HB_SEC`). -/
def jsOrInt (a : Option Int) (d : Int) : Int :=
  match a with
  | none => d
  | some i => if i = 0 then d else i

/-- Reply payload of a CALLRESULT, duck-typed as in the source: every field
the simulator ever reads is optional.  `idTagStatus` flattens
`auth?.idTagInfo?.status` (source line 253). -/
structure Reply where
  status : Option String := none
  interval : Option Int := none
  transactionId : Option Nat := none
  idTagStatus : Option String := none
deriving DecidableEq, Repr

/-- Outcome of awaiting a `sendCALL` promise: `ok` is a CALLRESULT (source
lines 364-371), `err` is a CALLERROR rejection or the timeout rejection
(source lines 75-80, 373-380), carrying the rejection message. -/
inductive CallRes where
  | ok (r : Reply)
  | err (msg : String)
deriving DecidableEq, Repr

/-- Outbound Call frames `[2, uid, action, payload]` the simulator sends,
with the payload fields the source fills in (timestamps omitted).  The
`meterValues` value field is the cumulative register after the increment
(source lines 206-223). -/
inductive OutCall where
  | bootNotification
  | heartbeat
  | statusNotification (connectorId : Nat) (status : String) (errorCode : String)
  | authorize (idTag : String)
  | startTransaction (connectorId : Nat) (idTag : String) (meterStart : Int)
  | stopTransaction (transactionId : Option Nat) (meterStop : Int) (reason : String)
  | meterValues (connectorId : Nat) (transactionId : Option Nat) (valueWh : Int)
deriving DecidableEq, Repr

/-- Observable events: frames written to the websocket (`callSent` for
outbound Calls, `resultSent` for `sendCALLRESULT` at line 84, `errorSent`
for `sendCALLERROR` at line 89), timer arming and disarming of the meter
loop (lines 197-235), and the interactive-variant write of the local
`currentStatus` variable (line 590). -/
inductive Ev where
  | callSent (c : OutCall)
  | resultSent (uid : Nat) (status : String)
  | errorSent (uid : Nat) (code : String) (desc : String)
  | localStatusSet (s : String)
  | meterArm
  | meterDisarm
deriving DecidableEq, Repr

/-- The module-level mutable state, source lines 41-53 (headless variant)
plus `currentStatus` which exists only in the interactive variant (line
492).  `hbArmed`/`hbPeriod` model `hbTimer` being non-null and the interval
it was armed with; `meterArmed` models `meterTimer` being non-null. -/
structure St where
  connected : Bool
  bootAccepted : Bool
  hbArmed : Bool
  hbPeriod : Int
  meterArmed : Bool
  transactionActive : Bool
  transactionId : Option Nat
  currentMeterWh : Int
  meterStartWh : Int
  lastIdTag : Option String
  currentStatus : String
deriving DecidableEq, Repr

/-- Resumption programs.  `done f` runs one final synchronous block.
`call f k` runs a synchronous block that ends by writing an outbound Call
frame, then suspends until the oracle delivers the reply to `k`.
`branch c t e` dispatches on the current state; it is resolved inside the
same atomic step as the node it guards (see `head`). -/
inductive Prog where
  | done (f : St → St × List Ev)
  | call (f : St → St × List Ev) (k : CallRes → Prog)
  | branch (c : St → Bool) (t : Prog) (e : Prog)

/-- The empty continuation: a task that ends without doing anything. -/
def skipP : Prog := .done (fun s => (s, []))

/-- Big-step run of a single task in isolation: the oracle supplies the
reply to the n-th awaited Call.  Returns the final state and the emitted
event trace. -/
def runP : Prog → St → (Nat → CallRes) → St × List Ev
  | .done f, s, _ => f s
  | .branch c t e, s, o => if c s then runP t s o else runP e s o
  | .call f k, s, o =>
      let fs := f s
      let rest := runP (k (o 0)) fs.1 (fun n => o (n + 1))
      (rest.1, fs.2 ++ rest.2)

/-- `stopMeterLoop()`, source lines 230-235: clears the meter timer if it is
armed (and only then logs); no effect otherwise. -/
def stopMeterLoopF (s : St) : St × List Ev :=
  if s.meterArmed then ({ s with meterArmed := false }, [Ev.meterDisarm]) else (s, [])

/-- `startMeterLoop()` entry effects, source lines 197-199 and 201/227:
first `stopMeterLoop()`, then arm the meter timer. -/
def startMeterLoopF (s : St) : St × List Ev :=
  let p := stopMeterLoopF s
  ({ p.1 with meterArmed := true }, p.2 ++ [Ev.meterArm])

/-- One firing of the meter timer callback, source lines 201-227: if no
transaction is active, return; otherwise add the synthesized increment to
the cumulative meter and send a fire-and-forget `MeterValues` Call carrying
the current transaction id and the post-increment register value.  The
callback is fully synchronous (the promise is not awaited; its rejection is
only logged at line 224). -/
def meterTickF (inc : Int) (s : St) : St × List Ev :=
  if !s.transactionActive then (s, [])
  else
    let s1 := { s with currentMeterWh := s.currentMeterWh + inc }
    (s1, [Ev.callSent (.meterValues CONNECTOR_ID s1.transactionId s1.currentMeterWh)])

/-- The meter timer callback as a task (it contains no await). -/
def meterTickProg (inc : Int) : Prog := .done (meterTickF inc)

/-- `startTransaction(idTag)`, source lines 147-168, in continuation style.
Block 1: record `meterStartWh = currentMeterWh` and send the
`StartTransaction` Call.  Block 2 (after the reply): adopt
`res.transactionId ?? 1`, set the transaction record, and send
`StatusNotification(Charging)`.  Block 3 (after that reply):
`startMeterLoop()` and then the synchronous continuation `kAfter` of the
caller (the code that runs after `await startTransaction(...)` resolves).
A rejection at either await propagates to `kErr`. -/
def startTransactionP (idTag : String) (kAfter : St → St × List Ev)
    (kErr : String → Prog) : Prog :=
  .call (fun s =>
      ({ s with meterStartWh := s.currentMeterWh },
        [Ev.callSent (.startTransaction CONNECTOR_ID idTag s.currentMeterWh)]))
    (fun r => match r with
      | .err m => kErr m
      | .ok res =>
        .call (fun s =>
            ({ s with
                transactionId := some (res.transactionId.getD 1),
                transactionActive := true,
                lastIdTag := some idTag },
              [Ev.callSent (.statusNotification CONNECTOR_ID "Charging" "NoError")]))
          (fun r2 => match r2 with
            | .err m => kErr m
            | .ok _ =>
              .done (fun s =>
                let p := startMeterLoopF s
                let q := kAfter p.1
                (q.1, p.2 ++ q.2))))

/-- `stopTransaction(reason)`, source lines 170-195, in continuation style.
Guard: if no transaction is active, return immediately (no frames, no state
change) into the caller continuation `kAfter`.  Otherwise: `stopMeterLoop()`
then send the `StopTransaction` Call with the current transaction id and
meter reading; after the reply, clear the transaction record and send
`StatusNotification(Available)`; after that reply, run `kAfter`.  A
rejection at either await propagates to `kErr`. -/
def stopTransactionP (reason : String) (kAfter : St → St × List Ev)
    (kErr : String → Prog) : Prog :=
  .branch (fun s => s.transactionActive)
    (.call (fun s =>
        let p := stopMeterLoopF s
        (p.1, p.2 ++
          [Ev.callSent (.stopTransaction p.1.transactionId p.1.currentMeterWh reason)]))
      (fun r => match r with
        | .err m => kErr m
        | .ok _ =>
          .call (fun s =>
              ({ s with
                  transactionActive := false,
                  transactionId := none,
                  lastIdTag := none },
                [Ev.callSent (.statusNotification CONNECTOR_ID "Available" "NoError")]))
            (fun r2 => match r2 with
              | .err m => kErr m
              | .ok _ => .done kAfter)))
    (.done kAfter)

/-- Session energy in kWh as computed at source line 186:
`(currentMeterWh - meterStartWh) / 1000`. -/
def energyKWh (s : St) : ℚ :=
  ((s.currentMeterWh : ℚ) - (s.meterStartWh : ℚ)) / 1000

/-- The `catch` block of the `RemoteStartTransaction` case, source lines
266-270: send a `GenericError` CallError for the inbound uid, then
`await sendStatus('Available')`.  If that await itself rejects, the
exception escapes `handleIncoming` and the dispatcher wrapper at source
lines 385-388 sends a second `GenericError` CallError. -/
def rsCatch (uid : Nat) (m : String) : Prog :=
  .call (fun s =>
      (s, [Ev.errorSent uid "GenericError" m,
           Ev.callSent (.statusNotification CONNECTOR_ID "Available" "NoError")]))
    (fun r => match r with
      | .ok _ => skipP
      | .err m2 => .done (fun s => (s, [Ev.errorSent uid "GenericError" m2])))

/-- The `RemoteStartTransaction` case of `handleIncoming`, source lines
242-272: `sendStatus('Preparing')`, then `authorize(idTag)`; if the
(default-substituted) authorization status is not Accepted, send a Rejected
CallResult and `await sendStatus('Available')` still inside the try block;
otherwise run `startTransaction` and send an Accepted CallResult.  The
catch block is `rsCatch`. -/
def remoteStartProg (uid : Nat) (idTag0 : Option String) : Prog :=
  let idTag := jsOrStr idTag0 "DEMO-TAG"
  .call (fun s =>
      (s, [Ev.callSent (.statusNotification CONNECTOR_ID "Preparing" "NoError")]))
    (fun r1 => match r1 with
      | .err m => rsCatch uid m
      | .ok _ =>
        .call (fun s => (s, [Ev.callSent (.authorize idTag)]))
          (fun r2 => match r2 with
            | .err m => rsCatch uid m
            | .ok auth =>
              if jsOrStr auth.idTagStatus "Accepted" = "Accepted" then
                startTransactionP idTag
                  (fun s => (s, [Ev.resultSent uid "Accepted"]))
                  (rsCatch uid)
              else
                .call (fun s =>
                    (s, [Ev.resultSent uid "Rejected",
                         Ev.callSent (.statusNotification CONNECTOR_ID "Available" "NoError")]))
                  (fun r3 => match r3 with
                    | .ok _ => skipP
                    | .err m => rsCatch uid m)))

/-- The `RemoteStopTransaction` case of `handleIncoming`, source lines
274-290: if a transaction is active, `stopTransaction('Remote')` then an
Accepted CallResult, with a catch that sends a `GenericError` CallError;
otherwise a Rejected CallResult.  The catch block contains no await, so an
exception can never escape this case. -/
def remoteStopProg (uid : Nat) : Prog :=
  .branch (fun s => s.transactionActive)
    (stopTransactionP "Remote"
      (fun s => (s, [Ev.resultSent uid "Accepted"]))
      (fun m => .done (fun s => (s, [Ev.errorSent uid "GenericError" m]))))
    (.done (fun s => (s, [Ev.resultSent uid "Rejected"])))

/-- Inbound Call payload fields the dispatcher reads. -/
structure InPayload where
  idTag : Option String := none
  connectorId : Option Nat := none
deriving DecidableEq, Repr

/-- `handleIncoming(uid, action, payload)` composed with the dispatcher
wrapper of source lines 385-388, covering every case of the switch at
source lines 241-319.  `Reset` replies Accepted (the deferred `ws.close()`
300 ms later is outside the dispatch and not modeled);
`ChangeAvailability` replies Accepted; `UnlockConnector` replies Unlocked;
any other action gets a `NotImplemented` CallError. -/
def handleIncomingProg (uid : Nat) (action : String) (p : InPayload) : Prog :=
  if action = "RemoteStartTransaction" then remoteStartProg uid p.idTag
  else if action = "RemoteStopTransaction" then remoteStopProg uid
  else if action = "Reset" then .done (fun s => (s, [Ev.resultSent uid "Accepted"]))
  else if action = "ChangeAvailability" then
    .done (fun s => (s, [Ev.resultSent uid "Accepted"]))
  else if action = "UnlockConnector" then
    .done (fun s => (s, [Ev.resultSent uid "Unlocked"]))
  else
    .done (fun s =>
      (s, [Ev.errorSent uid "NotImplemented" ("Action " ++ action ++ " not implemented")]))

/-- `bootSequence()`, source lines 95-128, in continuation style.  Send
`BootNotification`; if the reply status is not Accepted the function throws
(`kErr`; the caller at lines 342-347 logs and closes the socket, which is
not modeled further).  Otherwise set `bootAccepted`, arm the heartbeat
timer with `res.interval || DEFAULT_HB_SEC`, and send
`StatusNotification(Available)`. -/
def bootSequenceP (kOk : Prog) (kErr : String → Prog) : Prog :=
  .call (fun s => (s, [Ev.callSent .bootNotification]))
    (fun r => match r with
      | .err m => kErr m
      | .ok res =>
        if res.status = some "Accepted" then
          .call (fun s =>
              ({ s with
                  bootAccepted := true,
                  hbArmed := true,
                  hbPeriod := jsOrInt res.interval DEFAULT_HB_SEC },
                [Ev.callSent (.statusNotification CONNECTOR_ID "Available" "NoError")]))
            (fun r2 => match r2 with
              | .ok _ => kOk
              | .err m => kErr m)
        else kErr "Boot not accepted")

/-- The boot task spawned by the `open` handler (source lines 338-348). -/
def bootProg : Prog := bootSequenceP skipP (fun _ => skipP)

/-- The `close` handler, source lines 395-399: reset `connected` and
`bootAccepted`, clear the heartbeat timer, `stopMeterLoop()`.  (The 5-second
reconnect timer at line 406 re-enters `connect`.) -/
def closeHandlerF (s : St) : St × List Ev :=
  stopMeterLoopF { s with connected := false, bootAccepted := false, hbArmed := false }

/-- The interactive-variant `sendStatus`, source lines 589-598: it first
assigns the local `currentStatus` variable (line 590) and only then sends
the `StatusNotification` Call (lines 591-596). -/
def sendStatusIProg (status : String) (errorCode : String) (kOk : Prog)
    (kErr : String → Prog) : Prog :=
  .call (fun s =>
      ({ s with currentStatus := status },
        [Ev.localStatusSet status,
         Ev.callSent (.statusNotification CONNECTOR_ID status errorCode)]))
    (fun r => match r with
      | .ok _ => kOk
      | .err m => kErr m)

/-- Whether an event is a reply frame (CallResult or CallError) carrying the
given inbound-Call uid. -/
def isReplyFor (uid : Nat) : Ev → Bool
  | .resultSent u _ => u == uid
  | .errorSent u _ _ => u == uid
  | _ => false

/-- Number of reply frames for `uid` in a trace. -/
def countReplies (uid : Nat) (tr : List Ev) : Nat := tr.countP (isReplyFor uid)

/-- An oracle under which every awaited Call succeeds. -/
def allOk (o : Nat → CallRes) : Prop := ∀ n, ∃ r, o n = CallRes.ok r

/-- Whether an event is a CallError reply frame. -/
def isErrorReply : Ev → Bool
  | .errorSent _ _ _ => true
  | _ => false

/-- The correlation table `pending` (source line 53), a map from request uid
to the registered entry; only the action name matters here (the resolve and
reject slots are modeled by the delivered outcome). -/
abbrev PendingTable := List (String × String)

/-- `pending.has(uid)`. -/
def pendingHas (t : PendingTable) (uid : String) : Bool :=
  t.any (fun e => e.1 == uid)

/-- `pending.delete(uid)`. -/
def pendingDelete (t : PendingTable) (uid : String) : PendingTable :=
  t.filter (fun e => e.1 != uid)

/-- `pending.set(uid, {resolve, reject, action})` (source line 74). -/
def pendingSet (t : PendingTable) (uid action : String) : PendingTable :=
  t ++ [(uid, action)]

/-- The 20-second timeout callback registered by `sendCALL`, source lines
75-80: if the uid is still pending, remove it and reject the awaiting
caller with the timeout message (which interpolates the action name and the
uid); otherwise do nothing.  Returns the updated table and the rejection
message delivered to the caller, if any. -/
def timeoutFireF (t : PendingTable) (uid action : String) :
    PendingTable × Option String :=
  if pendingHas t uid then
    (pendingDelete t uid,
      some ("Timeout waiting for " ++ action ++ " (" ++ uid ++ ")"))
  else (t, none)

/-- The CALLRESULT / CALLERROR message-handler paths, source lines 364-380:
look up the uid; if absent, drop the frame; if present, delete the entry
and settle the promise.  Returns the updated table and whether a settlement
was delivered. -/
def resolveFireF (t : PendingTable) (uid : String) : PendingTable × Bool :=
  if pendingHas t uid then (pendingDelete t uid, true) else (t, false)

/-- Resolve the state-dependent branches a task performs synchronously
before its next suspension or termination: branch conditions are evaluated
inside the same atomic step as the block they guard (JavaScript code between
two awaits runs without interleaving). -/
def head : Prog → St → Prog
  | .branch c t e, s => if c s then head t s else head e s
  | p, _ => p

/-- A task of the event loop: a handler invocation or a timer callback.  A
task is `running` when it has a synchronous block ready to execute,
`waiting` while suspended on an awaited Call, `finished` when done. -/
inductive ETask where
  | running (p : Prog)
  | waiting (k : CallRes → Prog)
  | finished

/-- A configuration of the event loop: the shared mutable state, the tasks,
and the cumulative trace of observable events. -/
structure Config where
  st : St
  tasks : List ETask
  trace : List Ev

/-- Small-step interleaving semantics of the simulator process.  `wsOpen`
is the websocket open handler (source lines 338-348) spawning the boot
sequence; `spawnIncoming` is an inbound Call frame dispatched by the
message handler (lines 382-388); `meterFires` is a firing of the armed
meter timer with a synthesized increment in the source's 120-199 range
(line 205); `taskEnds`/`taskCalls` execute one maximal synchronous block of
a running task; `replyArrives` delivers a CALLRESULT, CALLERROR or timeout
rejection to a suspended task at an arbitrary later moment.  Heartbeat
firings are omitted: they touch neither the transaction state nor the meter
timer. -/
inductive Step : Config → Config → Prop where
  | wsOpen {c : Config} (h : c.st.connected = false) :
      Step c ⟨{ c.st with connected := true },
              c.tasks ++ [ETask.running bootProg], c.trace⟩
  | spawnIncoming {c : Config} (uid : Nat) (action : String) (p : InPayload)
      (h : c.st.connected = true) :
      Step c ⟨c.st, c.tasks ++ [ETask.running (handleIncomingProg uid action p)], c.trace⟩
  | meterFires {c : Config} (inc : Int) (h : c.st.meterArmed = true)
      (h1 : 120 ≤ inc) (h2 : inc ≤ 199) :
      Step c ⟨c.st, c.tasks ++ [ETask.running (meterTickProg inc)], c.trace⟩
  | taskEnds {c : Config} (i : Nat) {p : Prog} {f : St → St × List Ev}
      (hi : c.tasks[i]? = some (ETask.running p)) (hh : head p c.st = Prog.done f) :
      Step c ⟨(f c.st).1, c.tasks.set i ETask.finished, c.trace ++ (f c.st).2⟩
  | taskCalls {c : Config} (i : Nat) {p : Prog} {f : St → St × List Ev}
      {k : CallRes → Prog}
      (hi : c.tasks[i]? = some (ETask.running p)) (hh : head p c.st = Prog.call f k) :
      Step c ⟨(f c.st).1, c.tasks.set i (ETask.waiting k), c.trace ++ (f c.st).2⟩
  | replyArrives {c : Config} (i : Nat) (r : CallRes) {k : CallRes → Prog}
      (hi : c.tasks[i]? = some (ETask.waiting k)) :
      Step c ⟨c.st, c.tasks.set i (ETask.running (k r)), c.trace⟩

/-- The process-initial state, source lines 41-53: not connected, no boot,
no timers, no transaction, meter register at 10000 Wh. -/
def stInit : St :=
  { connected := false, bootAccepted := false, hbArmed := false, hbPeriod := 0,
    meterArmed := false, transactionActive := false, transactionId := none,
    currentMeterWh := 10000, meterStartWh := 0, lastIdTag := none,
    currentStatus := "Available" }

/-- The initial configuration: initial state, no tasks, empty trace. -/
def initConfig : Config := ⟨stInit, [], []⟩

/-- A configuration the process can reach from start. -/
def Reachable (c : Config) : Prop := Relation.ReflTransGen Step initConfig c

/-- Whether an event is a StopTransaction Call for transaction `t`. -/
def isStopOf (t : Nat) : Ev → Bool
  | .callSent (.stopTransaction tid _ _) => tid == some t
  | _ => false

/-- Whether an event is a MeterValues Call carrying transaction id `t`. -/
def isMeterOf (t : Nat) : Ev → Bool
  | .callSent (.meterValues _ tid _) => tid == some t
  | _ => false

/-- A MeterValues Call for transaction `t` occurs strictly after a
StopTransaction Call for `t` was issued. -/
def meterAfterStop (t : Nat) (tr : List Ev) : Bool :=
  (((tr.dropWhile (fun e => !isStopOf t e)).drop 1).any (isMeterOf t))

/-- A typical post-boot idle state: connected, boot accepted, heartbeat
armed at the default period, no transaction. -/
def stBoot : St :=
  { stInit with
    connected := true, bootAccepted := true, hbArmed := true, hbPeriod := 60 }

/-- A state with a live transaction (id 1, started at 11000 Wh, register at
12000 Wh) and the meter loop armed. -/
def stActive : St :=
  { stBoot with
    transactionActive := true, transactionId := some 1, meterArmed := true,
    meterStartWh := 11000, currentMeterWh := 12000, lastIdTag := some "OLD-TAG" }

/-- An oracle that answers every awaited Call with an empty CALLRESULT. -/
def okOracle : Nat → CallRes := fun _ => CallRes.ok {}

/-- Every await succeeds under `okOracle`. -/
theorem allOk_okOracle : allOk okOracle := fun _ => ⟨{}, rfl⟩

/-- Shifting an all-successful oracle keeps it all-successful. -/
theorem allOk_shift {o : Nat → CallRes} (h : allOk o) :
    allOk (fun n => o (n + 1)) := fun n => h (n + 1)

/-- Reply frames in a concatenated trace. -/
theorem countReplies_append (uid : Nat) (a b : List Ev) :
    countReplies uid (a ++ b) = countReplies uid a + countReplies uid b :=
  List.countP_append _ _ _

/-- `stopMeterLoop` emits no reply frame. -/
theorem countReplies_stopMeter (uid : Nat) (s : St) :
    countReplies uid (stopMeterLoopF s).2 = 0 := by
  unfold stopMeterLoopF
  by_cases h : s.meterArmed <;> simp [h, countReplies, isReplyFor]

/-- `startMeterLoop` emits no reply frame. -/
theorem countReplies_startMeter (uid : Nat) (s : St) :
    countReplies uid (startMeterLoopF s).2 = 0 := by
  unfold startMeterLoopF
  rw [countReplies_append, countReplies_stopMeter]
  simp [countReplies, isReplyFor]

/-- The RemoteStartTransaction catch block always sends at least one reply
frame (the GenericError CallError) for the inbound uid. -/
theorem one_le_countReplies_rsCatch (uid : Nat) (m : String) (st : St)
    (o : Nat → CallRes) :
    1 ≤ countReplies uid (runP (rsCatch uid m) st o).2 := by
  unfold rsCatch
  simp only [runP]
  cases ho : o 0 <;> simp [ho, skipP, runP, countReplies, isReplyFor]

/-- Deleting a uid from the pending table removes every entry with that
uid. -/
theorem pendingHas_delete (t : PendingTable) (uid : String) :
    pendingHas (pendingDelete t uid) uid = false := by
  induction t with
  | nil => rfl
  | cons e t ih =>
    by_cases h : e.1 = uid
    · simp only [pendingDelete, List.filter_cons, h] at ih ⊢
      simp [ih, h]
    · simp only [pendingDelete, pendingHas, List.filter_cons, List.any_cons] at ih ⊢
      simp [ih, h]

/-- The boot sequence never touches the meter timer. -/
theorem bootProg_meterArmed (s : St) (o : Nat → CallRes) :
    (runP bootProg s o).1.meterArmed = s.meterArmed := by
  unfold bootProg bootSequenceP
  simp only [runP]
  cases ho : o 0 with
  | err m => simp [skipP, runP]
  | ok res =>
    by_cases h : res.status = some "Accepted"
    · simp only [h, if_pos rfl, runP]
      cases h1 : o 1 <;> simp [skipP, runP]
    · simp [h, skipP, runP]

/-- Claim C7: when the 20-second deadline of an outbound Call fires while
its uid is still pending, the entry is removed from the correlation table
and the awaiting caller is rejected with the timeout message interpolating
the original action name and the request uid (source lines 75-80); when the
uid is no longer pending — in particular after a CALLRESULT or CALLERROR
already settled it (lines 364-380) — the timeout callback does nothing, so
the caller completes exactly once. -/
theorem C7_timeout_semantics (t : PendingTable) (uid action : String) :
    (pendingHas t uid = true →
      timeoutFireF t uid action =
        (pendingDelete t uid,
          some ("Timeout waiting for " ++ action ++ " (" ++ uid ++ ")"))) ∧
    (pendingHas t uid = false → timeoutFireF t uid action = (t, none)) ∧
    timeoutFireF (resolveFireF t uid).1 uid action =
      ((resolveFireF t uid).1, none) := by
  refine ⟨fun h => ?_, fun h => ?_, ?_⟩
  · simp [timeoutFireF, h]
  · simp [timeoutFireF, h]
  · cases h : pendingHas t uid
    · simp [resolveFireF, h, timeoutFireF]
    · simp [resolveFireF, h, timeoutFireF, pendingHas_delete]

/-- Witness for C7 at a concrete table: an unresolved uid is removed and
rejected with the interpolated message; feeding the table where the uid was
already resolved yields no further completion. -/
theorem C7_timeout_semantics_witness :
    timeoutFireF [("u1", "Heartbeat")] "u1" "Heartbeat" =
      ([], some "Timeout waiting for Heartbeat (u1)") ∧
    timeoutFireF (resolveFireF [("u1", "Heartbeat")] "u1").1 "u1" "Heartbeat" =
      ((resolveFireF [("u1", "Heartbeat")] "u1").1, none) := by
  have h := C7_timeout_semantics [("u1", "Heartbeat")] "u1" "Heartbeat"
  exact ⟨(h.1 (by decide)).trans (by decide), h.2.2⟩

/-- Claim C8: calling `stopTransaction` with no active transaction is a
complete no-op — it returns without raising, sends no frame, and leaves the
state (transaction record, meter readings, timers) exactly unchanged
(source lines 171-174). -/
theorem C8_stop_without_transaction_noop (st : St) (reason : String)
    (o : Nat → CallRes) (h : st.transactionActive = false) :
    runP (stopTransactionP reason (fun s => (s, [])) (fun _ => skipP)) st o =
      (st, []) := by
  simp [stopTransactionP, runP, h, skipP]

/-- Witness for C8 at the post-boot idle state. -/
theorem C8_stop_without_transaction_noop_witness :
    runP (stopTransactionP "Local" (fun s => (s, [])) (fun _ => skipP)) stBoot
      okOracle = (stBoot, []) :=
  C8_stop_without_transaction_noop stBoot "Local" okOracle rfl

/-- Claim C10: the websocket close handler (source lines 395-399) cancels
the heartbeat and meter timers and resets `connected` and `bootAccepted`,
while leaving the whole transaction record — `transactionActive`,
`transactionId`, `meterStartWh`, `currentMeterWh`, `lastIdTag` — untouched;
and the boot sequence run on reconnection never touches the meter timer, so
metering does not resume for a surviving transaction (the loop is re-armed
only by `startTransaction`, source line 167). -/
theorem C10_close_preserves_transaction (s : St) (o : Nat → CallRes) :
    (closeHandlerF s).1.transactionActive = s.transactionActive ∧
    (closeHandlerF s).1.transactionId = s.transactionId ∧
    (closeHandlerF s).1.meterStartWh = s.meterStartWh ∧
    (closeHandlerF s).1.currentMeterWh = s.currentMeterWh ∧
    (closeHandlerF s).1.lastIdTag = s.lastIdTag ∧
    (closeHandlerF s).1.connected = false ∧
    (closeHandlerF s).1.bootAccepted = false ∧
    (closeHandlerF s).1.hbArmed = false ∧
    (closeHandlerF s).1.meterArmed = false ∧
    (runP bootProg (closeHandlerF s).1 o).1.meterArmed = false := by
  have hb := bootProg_meterArmed (closeHandlerF s).1 o
  unfold closeHandlerF stopMeterLoopF at *
  by_cases h : s.meterArmed <;> simp_all

/-- The oracle answering the BootNotification Call with the given status
and interval fields, and every later Call with an empty CALLRESULT. -/
def bootOracle (stat : Option String) (iv : Option Int) : Nat → CallRes :=
  fun n => if n = 0 then CallRes.ok { status := stat, interval := iv } else okOracle n

/-- Claim C3 counterexample: for the accepted BootNotification reply with
interval -5 the heartbeat is armed with period -5, not the 60-second
default the claim requires for non-positive intervals (source line 115
substitutes the default only for falsy values, and a negative number is
truthy in JavaScript). -/
theorem C3_counterexample :
    (runP bootProg stInit (bootOracle (some "Accepted") (some (-5)))).1.hbPeriod
      = -5 ∧
    ¬ ((-5 : Int) = DEFAULT_HB_SEC) := by
  constructor
  · decide
  · decide

/-- Claim C3 (amended): after an accepted BootNotification reply the
heartbeat period is `interval || DEFAULT_HB_SEC`: the reply interval
whenever it is present and nonzero — including the scenario interval 30 and
any negative interval — and the 60-second default exactly when the field is
absent or zero. -/
theorem C3_heartbeat_interval (st : St) (iv : Option Int) :
    (runP bootProg st (bootOracle (some "Accepted") iv)).1.hbPeriod =
      jsOrInt iv DEFAULT_HB_SEC ∧
    jsOrInt none DEFAULT_HB_SEC = 60 ∧
    jsOrInt (some 0) DEFAULT_HB_SEC = 60 ∧
    (∀ j : Int, j ≠ 0 → jsOrInt (some j) DEFAULT_HB_SEC = j) ∧
    (runP bootProg st (bootOracle (some "Accepted") (some 30))).1.hbPeriod = 30 := by
  refine ⟨?_, rfl, by decide, fun j hj => by simp [jsOrInt, hj], ?_⟩
  · simp [bootProg, bootSequenceP, runP, bootOracle, okOracle, skipP]
  · simp [bootProg, bootSequenceP, runP, bootOracle, okOracle, skipP, jsOrInt]

/-- Witness for C3 at the initial state with interval 45. -/
theorem C3_heartbeat_interval_witness :
    (runP bootProg stInit (bootOracle (some "Accepted") (some 45))).1.hbPeriod
      = 45 := by
  have h := C3_heartbeat_interval stInit (some 45)
  have h45 := h.2.2.2.1 45 (by decide)
  exact h.1.trans h45

/-- Claim C4 counterexample: in the interactive variant, one run of
`sendStatus` writes the local `currentStatus` variable first (source line
590) and only afterwards sends the StatusNotification Call (lines 591-596),
so the trace of the Preparing transition begins with the local update, not
with the Call — the local status is updated first, contradicting the
claim. -/
theorem C4_counterexample :
    (runP (sendStatusIProg "Preparing" "NoError" skipP (fun _ => skipP)) stBoot
        okOracle).2 =
      [Ev.localStatusSet "Preparing",
       Ev.callSent (.statusNotification CONNECTOR_ID "Preparing" "NoError")] := by
  decide

/-- Claim C4 (amended): in the interactive variant every status transition
updates the locally-held `currentStatus` strictly before issuing the
StatusNotification Call carrying the new status (the headless variant keeps
no local status variable at all, so only the interactive `sendStatus` is at
issue). -/
theorem C4_local_update_precedes_send (status errorCode : String) (st : St)
    (o : Nat → CallRes) :
    (runP (sendStatusIProg status errorCode skipP (fun _ => skipP)) st o).2 =
      [Ev.localStatusSet status,
       Ev.callSent (.statusNotification CONNECTOR_ID status errorCode)] ∧
    (runP (sendStatusIProg status errorCode skipP (fun _ => skipP)) st
      o).1.currentStatus = status := by
  unfold sendStatusIProg
  simp only [runP]
  cases h : o 0 <;> simp [skipP, runP]

/-- The oracle for the C9 scenario: the StartTransaction reply assigns
transaction id 7; every other Call succeeds with an empty CALLRESULT. -/
def c9oracle : Nat → CallRes :=
  fun n => if n = 0 then CallRes.ok { transactionId := some 7 } else okOracle n

/-- The C9 start: `startTransaction` run from the post-boot state (meter
register at 10000 Wh). -/
def c9start : St × List Ev :=
  runP (startTransactionP "TAG-1" (fun s => (s, [])) (fun _ => skipP)) stBoot
    c9oracle

/-- The state after three meter ticks of +150 Wh each. -/
def c9afterTicks : St :=
  (meterTickF 150 (meterTickF 150 (meterTickF 150 c9start.1).1).1).1

/-- The C9 stop: `stopTransaction` run from the post-ticks state.  The
energy log at source line 186 reads `currentMeterWh` and `meterStartWh`,
which the stop leaves untouched up to that point, so `energyKWh
c9afterTicks` is exactly the value the source computes. -/
def c9stop : St × List Ev :=
  runP (stopTransactionP "Remote" (fun s => (s, [])) (fun _ => skipP))
    c9afterTicks okOracle

/-- Claim C9: starting a transaction at meter register 10000 Wh records
`meterStart = 10000`; three ticks of +150 Wh each bring the register to
10450; `stopTransaction` then reports `meterStop = 10450` for the assigned
transaction id, and the session energy computed by the source formula
`(currentMeterWh - meterStartWh) / 1000` is 0.450 kWh. -/
theorem C9_session_energy :
    c9start.2.head? =
      some (Ev.callSent (.startTransaction CONNECTOR_ID "TAG-1" 10000)) ∧
    c9afterTicks.meterStartWh = 10000 ∧
    c9afterTicks.currentMeterWh = 10450 ∧
    Ev.callSent (.stopTransaction (some 7) 10450 "Remote") ∈ c9stop.2 ∧
    energyKWh c9afterTicks = 9 / 20 := by
  refine ⟨by decide, by decide, by decide, by decide, ?_⟩
  have h1 : c9afterTicks.currentMeterWh = 10450 := by decide
  have h2 : c9afterTicks.meterStartWh = 10000 := by decide
  unfold energyKWh
  rw [h1, h2]
  norm_num

/-- Exact reply count of the RemoteStartTransaction catch block: one
GenericError CallError, plus a second one from the dispatcher wrapper when
the `sendStatus('Available')` inside the catch itself rejects. -/
theorem countReplies_rsCatch (uid : Nat) (m : String) (st : St)
    (o : Nat → CallRes) :
    countReplies uid (runP (rsCatch uid m) st o).2 =
      (match o 0 with | .ok _ => 1 | .err _ => 2) := by
  unfold rsCatch
  simp only [runP]
  cases ho : o 0 <;> simp [ho, skipP, runP, countReplies, isReplyFor]


/-- Reply counting distributes over cons. -/
theorem countReplies_cons (uid : Nat) (e : Ev) (tr : List Ev) :
    countReplies uid (e :: tr) =
      countReplies uid tr + (if isReplyFor uid e then 1 else 0) :=
  List.countP_cons _ _ _

/-- The empty trace has no replies. -/
theorem countReplies_nil (uid : Nat) : countReplies uid [] = 0 := rfl

/-- The RemoteStopTransaction case always sends exactly one reply frame for
the inbound uid, on every oracle and from every state. -/
theorem remoteStop_replies (uid : Nat) (st : St) (o : Nat → CallRes) :
    countReplies uid (runP (remoteStopProg uid) st o).2 = 1 := by
  unfold remoteStopProg stopTransactionP
  simp only [runP]
  cases hA : st.transactionActive
  · simp [countReplies_cons, countReplies_nil, isReplyFor]
  · simp only [if_pos rfl]
    cases ho0 : o 0 with
    | err m =>
      simp [ho0, runP, countReplies_append, countReplies_stopMeter,
        countReplies_cons, countReplies_nil, isReplyFor]
    | ok r =>
      cases ho1 : o 1 <;>
        simp [ho0, ho1, runP, countReplies_append, countReplies_stopMeter,
          countReplies_cons, countReplies_nil, isReplyFor]

/-- The RemoteStartTransaction case sends at least one reply frame for the
inbound uid on every oracle, and exactly one when every awaited Call
succeeds. -/
theorem remoteStart_replies (uid : Nat) (idTag0 : Option String) (st : St)
    (o : Nat → CallRes) :
    1 ≤ countReplies uid (runP (remoteStartProg uid idTag0) st o).2 ∧
    (allOk o →
      countReplies uid (runP (remoteStartProg uid idTag0) st o).2 = 1) := by
  constructor
  · unfold remoteStartProg startTransactionP
    simp only [runP]
    cases ho0 : o 0 with
    | err m =>
      simp [ho0, runP, countReplies_rsCatch, countReplies_append,
        countReplies_cons, countReplies_nil, isReplyFor]
    | ok r0 =>
      cases ho1 : o 1 with
      | err m =>
        simp [ho0, ho1, runP, countReplies_rsCatch, countReplies_append,
          countReplies_cons, countReplies_nil, isReplyFor]
      | ok auth =>
        by_cases hs : jsOrStr auth.idTagStatus "Accepted" = "Accepted"
        · cases ho2 : o 2 with
          | err m =>
            simp [ho0, ho1, ho2, hs, runP, countReplies_rsCatch,
              countReplies_append, countReplies_cons, countReplies_nil,
              isReplyFor]
          | ok res =>
            cases ho3 : o 3 with
            | err m =>
              simp [ho0, ho1, ho2, ho3, hs, runP, countReplies_rsCatch,
                countReplies_append, countReplies_cons, countReplies_nil,
                isReplyFor]
            | ok r3 =>
              simp [ho0, ho1, ho2, ho3, hs, runP, countReplies_rsCatch,
                countReplies_append, countReplies_cons, countReplies_nil,
                countReplies_startMeter, isReplyFor]
        · cases ho2 : o 2 with
          | err m =>
            simp [ho0, ho1, ho2, hs, runP, countReplies_rsCatch,
              countReplies_append, countReplies_cons, countReplies_nil,
              isReplyFor]
          | ok r2 =>
            simp [ho0, ho1, ho2, hs, runP, skipP, countReplies_append,
              countReplies_cons, countReplies_nil, isReplyFor]
  · intro hall
    obtain ⟨r0, h0⟩ := hall 0
    obtain ⟨r1, h1⟩ := hall 1
    obtain ⟨r2, h2⟩ := hall 2
    obtain ⟨r3, h3⟩ := hall 3
    unfold remoteStartProg startTransactionP
    simp only [runP]
    by_cases hs : jsOrStr r1.idTagStatus "Accepted" = "Accepted" <;>
      simp [h0, h1, h2, h3, hs, runP, skipP, countReplies_append,
        countReplies_cons, countReplies_nil, countReplies_startMeter,
        isReplyFor]

/-- Claim C1 (amended): every dispatch of an inbound Call — any action, any
payload, any starting state, any outcome of the awaited steps — sends at
least one reply frame (CallResult or CallError) carrying the Call uid, and
exactly one when every awaited step succeeds; but when an awaited step
fails after a reply has already been sent (the `sendStatus('Available')`
that follows the Rejected CallResult in the RemoteStartTransaction case,
source lines 257-258), the catch paths send additional CallError replies
for the same uid, so "never more than one" does not hold. -/
theorem C1_dispatch_reply_count (uid : Nat) (action : String) (p : InPayload)
    (st : St) (o : Nat → CallRes) :
    1 ≤ countReplies uid (runP (handleIncomingProg uid action p) st o).2 ∧
    (allOk o →
      countReplies uid (runP (handleIncomingProg uid action p) st o).2 = 1) := by
  unfold handleIncomingProg
  by_cases h1 : action = "RemoteStartTransaction"
  · simp only [h1, if_pos rfl]
    exact remoteStart_replies uid p.idTag st o
  · simp only [h1, if_neg h1]
    by_cases h2 : action = "RemoteStopTransaction"
    · simp only [h2, if_pos rfl]
      have h := remoteStop_replies uid st o
      exact ⟨h.ge, fun _ => h⟩
    · simp only [h2, if_neg h2]
      by_cases h3 : action = "Reset"
      · simp only [h3, if_pos rfl]
        refine ⟨?_, fun _ => ?_⟩ <;>
          simp [runP, countReplies_cons, countReplies_nil, isReplyFor]
      · simp only [h3, if_neg h3]
        by_cases h4 : action = "ChangeAvailability"
        · simp only [h4, if_pos rfl]
          refine ⟨?_, fun _ => ?_⟩ <;>
            simp [runP, countReplies_cons, countReplies_nil, isReplyFor]
        · simp only [h4, if_neg h4]
          by_cases h5 : action = "UnlockConnector"
          · simp only [h5, if_pos rfl]
            refine ⟨?_, fun _ => ?_⟩ <;>
              simp [runP, countReplies_cons, countReplies_nil, isReplyFor]
          · simp only [h5, if_neg h5]
            refine ⟨?_, fun _ => ?_⟩ <;>
              simp [runP, countReplies_cons, countReplies_nil, isReplyFor]

/-- Witness for C1 at a concrete dispatch where every awaited step
succeeds: exactly one reply frame is sent. -/
theorem C1_dispatch_reply_count_witness :
    countReplies 7 (runP (handleIncomingProg 7 "RemoteStartTransaction"
      { idTag := some "TAG-X" }) stBoot okOracle).2 = 1 :=
  (C1_dispatch_reply_count 7 "RemoteStartTransaction" { idTag := some "TAG-X" }
    stBoot okOracle).2 allOk_okOracle

/-- The oracle refuting C1: the Authorize reply is Blocked, and the
`sendStatus('Available')` that follows the already-sent Rejected CallResult
rejects. -/
def c1oracle : Nat → CallRes := fun n =>
  if n = 1 then CallRes.ok { idTagStatus := some "Blocked" }
  else if n = 2 then CallRes.err "status send failed"
  else okOracle n

/-- Claim C1 counterexample: dispatching RemoteStartTransaction (uid 7)
where authorization is Blocked and the StatusNotification awaited after the
Rejected CallResult fails produces two reply frames for uid 7 — the
Rejected CallResult (source line 257) and then a GenericError CallError
from the catch block (line 268) — refuting "never more than one". -/
theorem C1_counterexample :
    countReplies 7 (runP (handleIncomingProg 7 "RemoteStartTransaction"
      { idTag := some "TAG-X" }) stBoot c1oracle).2 = 2 := by
  decide

/-- The oracle for C2: every awaited Call succeeds, and the StartTransaction
reply (the third await of the remote-start flow) assigns the given
transaction id. -/
def c2oracle (tid : Nat) : Nat → CallRes :=
  fun n => if n = 2 then CallRes.ok { transactionId := some tid } else okOracle n

/-- Claim C2 (amended): the RemoteStartTransaction handler does not guard on
an active transaction (source lines 242-264 contain no `transactionActive`
check, and `startTransaction` at lines 147-168 has no precondition): even
from a state with a live transaction, the dispatch issues a second
StartTransaction Call and overwrites the live record — `transactionId`
becomes the newly assigned id and `meterStartWh` is re-captured.  At most
one Transaction record exists only because the state holds a single set of
transaction variables, not because a second start is rejected. -/
theorem C2_remote_start_unguarded (st : St) (uid : Nat) (idTag : String)
    (tid : Nat) (_hA : st.transactionActive = true) (hT : idTag ≠ "") :
    Ev.callSent (.startTransaction CONNECTOR_ID idTag st.currentMeterWh) ∈
      (runP (handleIncomingProg uid "RemoteStartTransaction"
        { idTag := some idTag }) st (c2oracle tid)).2 ∧
    (runP (handleIncomingProg uid "RemoteStartTransaction"
      { idTag := some idTag }) st (c2oracle tid)).1.transactionId = some tid ∧
    (runP (handleIncomingProg uid "RemoteStartTransaction"
      { idTag := some idTag }) st (c2oracle tid)).1.transactionActive = true ∧
    (runP (handleIncomingProg uid "RemoteStartTransaction"
      { idTag := some idTag }) st (c2oracle tid)).1.meterStartWh =
      st.currentMeterWh := by
  unfold handleIncomingProg remoteStartProg startTransactionP
  simp only [if_pos rfl]
  simp [runP, c2oracle, okOracle, jsOrStr, hT, startMeterLoopF, stopMeterLoopF]
  by_cases hm : st.meterArmed <;> simp [hm]

/-- Witness for C2 from the live-transaction state `stActive`. -/
theorem C2_remote_start_unguarded_witness :
    Ev.callSent (.startTransaction CONNECTOR_ID "X" stActive.currentMeterWh) ∈
      (runP (handleIncomingProg 5 "RemoteStartTransaction"
        { idTag := some "X" }) stActive (c2oracle 2)).2 ∧
    (runP (handleIncomingProg 5 "RemoteStartTransaction"
      { idTag := some "X" }) stActive (c2oracle 2)).1.transactionId = some 2 ∧
    (runP (handleIncomingProg 5 "RemoteStartTransaction"
      { idTag := some "X" }) stActive (c2oracle 2)).1.transactionActive = true ∧
    (runP (handleIncomingProg 5 "RemoteStartTransaction"
      { idTag := some "X" }) stActive (c2oracle 2)).1.meterStartWh =
      stActive.currentMeterWh :=
  C2_remote_start_unguarded stActive 5 "X" 2 rfl (by decide)

/-- Claim C2 counterexample: from `stActive` — a reachable-shaped state with
live transaction id 1 — a RemoteStartTransaction dispatch whose awaited
Calls all succeed issues a second StartTransaction Call and ends with the
live record overwritten to transaction id 2, refuting both "startTransaction
is never invoked (or is rejected) while a Transaction is already active" and
"does not result in a second StartTransaction exchange overwriting the live
transaction". -/
theorem C2_counterexample :
    stActive.transactionActive = true ∧
    stActive.transactionId = some 1 ∧
    Ev.callSent (.startTransaction CONNECTOR_ID "X" 12000) ∈
      (runP (handleIncomingProg 5 "RemoteStartTransaction"
        { idTag := some "X" }) stActive (c2oracle 2)).2 ∧
    (runP (handleIncomingProg 5 "RemoteStartTransaction"
      { idTag := some "X" }) stActive (c2oracle 2)).1.transactionId = some 2 := by
  decide

/-- Claim C5 (amended): for an inbound RemoteStopTransaction Call, if no
transaction is active the dispatch replies with exactly the Rejected
CallResult and changes nothing; if a transaction is active and every
awaited step succeeds, the dispatch stops the transaction and its last
frame is the Accepted CallResult, with no CallError anywhere in the trace;
but the case is not error-free — if the awaited `stopTransaction` rejects
(for example on a StopTransaction timeout), the catch block (source lines
285-288) replies with a GenericError CallError instead. -/
theorem C5_remote_stop_semantics (uid : Nat) (st : St) (o : Nat → CallRes) :
    (st.transactionActive = false →
      runP (handleIncomingProg uid "RemoteStopTransaction" {}) st o =
        (st, [Ev.resultSent uid "Rejected"])) ∧
    (st.transactionActive = true → allOk o →
      (runP (handleIncomingProg uid "RemoteStopTransaction" {}) st
        o).2.countP isErrorReply = 0 ∧
      (runP (handleIncomingProg uid "RemoteStopTransaction" {}) st
        o).2.getLast? = some (Ev.resultSent uid "Accepted") ∧
      (runP (handleIncomingProg uid "RemoteStopTransaction" {}) st
        o).1.transactionActive = false) ∧
    (st.transactionActive = true → ∀ m, o 0 = CallRes.err m →
      (runP (handleIncomingProg uid "RemoteStopTransaction" {}) st
        o).2.getLast? = some (Ev.errorSent uid "GenericError" m)) := by
  unfold handleIncomingProg remoteStopProg stopTransactionP
  refine ⟨fun hA => ?_, fun hA hall => ?_, fun hA m hm => ?_⟩
  · simp [runP, hA]
  · obtain ⟨r0, h0⟩ := hall 0
    obtain ⟨r1, h1⟩ := hall 1
    simp [runP, hA, h0, h1, stopMeterLoopF, isErrorReply]
    by_cases hm : st.meterArmed <;> simp [hm, isErrorReply]
  · simp [runP, hA, hm, stopMeterLoopF]

/-- Witness for C5: from the idle state a Rejected CallResult alone; from
the live-transaction state with all awaited steps succeeding, no CallError,
a final Accepted CallResult, and the transaction cleared. -/
theorem C5_remote_stop_semantics_witness :
    runP (handleIncomingProg 9 "RemoteStopTransaction" {}) stBoot okOracle =
      (stBoot, [Ev.resultSent 9 "Rejected"]) ∧
    (runP (handleIncomingProg 9 "RemoteStopTransaction" {}) stActive
      okOracle).2.countP isErrorReply = 0 ∧
    (runP (handleIncomingProg 9 "RemoteStopTransaction" {}) stActive
      okOracle).2.getLast? = some (Ev.resultSent 9 "Accepted") ∧
    (runP (handleIncomingProg 9 "RemoteStopTransaction" {}) stActive
      okOracle).1.transactionActive = false :=
  ⟨(C5_remote_stop_semantics 9 stBoot okOracle).1 rfl,
   (C5_remote_stop_semantics 9 stActive okOracle).2.1 rfl allOk_okOracle⟩

/-- Claim C5 counterexample: with a live transaction, a RemoteStopTransaction
dispatch whose awaited StopTransaction Call rejects (timeout) produces a
GenericError CallError reply — the case does have an error path, refuting
"in neither case is a CallError reply ever produced for this action". -/
theorem C5_counterexample :
    (runP (handleIncomingProg 9 "RemoteStopTransaction" {}) stActive
        (fun _ => CallRes.err "Timeout waiting for StopTransaction (u9)")).2 =
      [Ev.meterDisarm,
       Ev.callSent (.stopTransaction (some 1) 12000 "Remote"),
       Ev.errorSent 9 "GenericError"
         "Timeout waiting for StopTransaction (u9)"] := by
  decide

/-- A concrete interleaved execution of the simulator refuting the C6
guarantee.  From process start: the socket opens and the boot handshake
succeeds; a RemoteStartTransaction (uid 10) is dispatched and proceeds
through Preparing, Authorize and StartTransaction (assigned transaction
id 1), and is suspended awaiting the StatusNotification(Charging) reply —
at which point the meter loop is not yet armed.  A RemoteStopTransaction
(uid 11) then arrives, sees `transactionActive = true`, and issues the
StopTransaction Call for id 1.  The start flow then resumes, runs
`startMeterLoop()` — re-arming the meter timer after the stop was already
initiated — and the next meter tick (+150 Wh) sends a MeterValues Call
still carrying transaction id 1. -/
theorem c6_violation : ∃ c, Reachable c ∧ meterAfterStop 1 c.trace = true := by
  have r0 : Relation.ReflTransGen Step initConfig initConfig :=
    Relation.ReflTransGen.refl
  have r1 := r0.tail (Step.wsOpen rfl)
  have r2 := r1.tail (Step.taskCalls 0 rfl rfl)
  have r3 := r2.tail (Step.replyArrives 0
    (CallRes.ok { status := some "Accepted", interval := some 300 }) rfl)
  have r4 := r3.tail (Step.taskCalls 0 rfl rfl)
  have r5 := r4.tail (Step.replyArrives 0 (CallRes.ok {}) rfl)
  have r6 := r5.tail (Step.taskEnds 0 rfl rfl)
  have r7 := r6.tail (Step.spawnIncoming 10 "RemoteStartTransaction"
    { idTag := some "X" } rfl)
  have r8 := r7.tail (Step.taskCalls 1 rfl rfl)
  have r9 := r8.tail (Step.replyArrives 1 (CallRes.ok {}) rfl)
  have r10 := r9.tail (Step.taskCalls 1 rfl rfl)
  have r11 := r10.tail (Step.replyArrives 1 (CallRes.ok {}) rfl)
  have r12 := r11.tail (Step.taskCalls 1 rfl rfl)
  have r13 := r12.tail (Step.replyArrives 1
    (CallRes.ok { transactionId := some 1 }) rfl)
  have r14 := r13.tail (Step.taskCalls 1 rfl rfl)
  have r15 := r14.tail (Step.spawnIncoming 11 "RemoteStopTransaction" {} rfl)
  have r16 := r15.tail (Step.taskCalls 2 rfl rfl)
  have r17 := r16.tail (Step.replyArrives 1 (CallRes.ok {}) rfl)
  have r18 := r17.tail (Step.taskEnds 1 rfl rfl)
  have r19 := r18.tail (Step.meterFires 150 rfl (by decide) (by decide))
  have r20 := r19.tail (Step.taskEnds 3 rfl rfl)
  exact ⟨_, r20, by decide⟩

/-- Claim C6 counterexample: it is not true that in every reachable
execution every MeterValues Call precedes the StopTransaction Call of its
transaction id — the interleaving exhibited in the proof (stop initiated
while the start flow, already past its StartTransaction exchange, is still
awaiting the StatusNotification(Charging) reply; the resuming start then
re-arms the meter loop) sends MeterValues for transaction 1 after
StopTransaction for transaction 1 was issued. -/
theorem C6_counterexample :
    ¬ (∀ c : Config, Reachable c → ∀ t : Nat,
        meterAfterStop t c.trace = false) := by
  intro hAll
  obtain ⟨c, hr, hv⟩ := c6_violation
  have hf := hAll c hr 1
  rw [hf] at hv
  exact Bool.false_ne_true hv

/-- Claim C6 (amended): inside `stopTransaction` the metering timer is
always cancelled before the StopTransaction Call is issued (source lines
177-179) — from any state with an active transaction and an armed meter
loop the trace starts with the disarm followed immediately by the
StopTransaction Call.  However, the global guarantee fails: there is a
reachable execution in which a concurrently completing `startTransaction`
re-arms the meter loop after a StopTransaction was already issued, so a
MeterValues Call carrying an already-stopped transaction id does get
sent. -/
theorem C6_meter_cancel_order (st : St) (o : Nat → CallRes) (reason : String)
    (hA : st.transactionActive = true) (hM : st.meterArmed = true) :
    (∃ rest,
      (runP (stopTransactionP reason (fun s => (s, [])) (fun _ => skipP)) st
        o).2 =
        Ev.meterDisarm ::
          Ev.callSent
            (.stopTransaction st.transactionId st.currentMeterWh reason) ::
            rest) ∧
    (∃ c, Reachable c ∧ meterAfterStop 1 c.trace = true) := by
  refine ⟨?_, c6_violation⟩
  unfold stopTransactionP
  simp only [runP]
  simp [hA, stopMeterLoopF, hM]

/-- Witness for C6 from the live-transaction state with the meter loop
armed and every awaited Call succeeding. -/
theorem C6_meter_cancel_order_witness :
    (∃ rest,
      (runP (stopTransactionP "Remote" (fun s => (s, [])) (fun _ => skipP))
        stActive okOracle).2 =
        Ev.meterDisarm ::
          Ev.callSent (.stopTransaction (some 1) 12000 "Remote") :: rest) ∧
    (∃ c, Reachable c ∧ meterAfterStop 1 c.trace = true) :=
  C6_meter_cancel_order stActive okOracle "Remote" rfl rfl
